import Mathlib

/-!
Verification of the real-time windowed gesture-inference pipeline and its
serving protocol (repository `puppet_unity`, modules
`gesture_server.py` and `src/realtime_enhanced.py`).

Numeric conventions of the shallow embedding:
* wire-level numbers and oracle outputs (probabilities, confidences,
  masks) are modelled as exact rationals `ℚ` (IEEE floats carry exact
  dyadic values through the code paths we verify, none of which round);
* geometric quantities that pass through `sqrt`/`arccos`
  (landmark normalization, feature extraction, the velocity channel)
  are modelled over `ℝ`;
* the classification model together with the softmax applied to its
  logits is the external Inference Oracle and is universally
  quantified: a function from a padded sequence and mask to a
  probability vector and a confidence scalar.
-/

namespace PuppetUnity

/-- JSON scalar values, as far as the handled payload fields need them.
`target_label` in a request can be absent (`null`), a string, a number
or a boolean; the server only treats nonempty strings specially. -/
inductive JVal where
  | null : JVal
  | str (s : String) : JVal
  | num (q : ℚ) : JVal
  | bool (b : Bool) : JVal
deriving DecidableEq

/-- Python truthiness of a `JVal`, as used by `target_label or ""`. -/
def JVal.truthy : JVal → Bool
  | .null => false
  | .str s => s != ""
  | .num q => q != 0
  | .bool b => b

/-- Lowercasing of one ASCII character, the effect of Python's
`str.lower` on the character range the label names and target labels
use. -/
def lower_char (c : Char) : Char :=
  if 'A' ≤ c ∧ c ≤ 'Z' then Char.ofNat (c.toNat + 32) else c

/-- Embedding of Python's `str.lower()` (ASCII range). -/
def py_lower (s : String) : String := String.mk (s.data.map lower_char)

/-- Embedding of `np.argmax` on a rational list: index of the first
occurrence of the maximum (`0` on the empty list, a dead path here
because oracle probability vectors are nonempty). -/
def np_argmax (l : List ℚ) : ℕ :=
  (l.enum.foldl (fun best p => if p.2 > best.2 then p else best) (0, l.headI)).1

/-- Embedding of `label_map.get(k, ...)`: first entry of the association
list with the given class id.  The label map is an association list in
insertion order, mirroring the Python `dict` iteration order. -/
def label_lookup (label_map : List (ℕ × String)) (k : ℕ) : Option String :=
  (label_map.find? (fun p => p.1 == k)).map (fun p => p.2)

/-- The JSON response record written back to the client
(`gesture_server.py`, `handle_client`).  The JSON field `match` is the
Lean field `matched` (`match` is a Lean keyword). -/
structure GestureResponse where
  top1 : String
  top1_prob : ℚ
  target_label : JVal
  prob : ℚ
  confidence : ℚ
  matched : Bool
deriving DecidableEq

/-- Embedding of the response-composition block of `handle_client`
(`gesture_server.py` lines 170-190): given the prediction
(`top_index`, `top_prob`, `probabilities`, `confidence`) and the
client-supplied `target_label`, build the response record.
The target branch mirrors the source exactly: `target_prob` starts at
`top_prob`, is reset to `0.0` as soon as a nonempty string target is
supplied, and is overwritten only when the linear scan of the label map
finds a case-insensitive name match (first match wins, then `break`);
`matched_target` is set to `cls_id == top_index` at that same match.
The echoed label is `target_label or ""`. -/
def compose_response (label_map : List (ℕ × String)) (probabilities : List ℚ)
    (top_index : ℕ) (top_prob : ℚ) (confidence : ℚ) (target_label : JVal) :
    GestureResponse :=
  let top1_label := (label_lookup label_map top_index).getD (toString top_index)
  let tp :=
    match target_label with
    | .str t =>
      if t != "" then
        match label_map.find? (fun (p : ℕ × String) => py_lower p.2 == py_lower t) with
        | some q => (probabilities.getD q.1 0, q.1 == top_index)
        | none => ((0 : ℚ), false)
      else (top_prob, false)
    | _ => (top_prob, false)
  { top1 := top1_label
    top1_prob := top_prob
    target_label := if target_label.truthy then target_label else .str ""
    prob := tp.1
    confidence := confidence
    matched := tp.2 }

/-- Response composition as `handle_client` drives it: `top_index` is
`np.argmax(probabilities)` and `top_prob = probabilities[top_index]`,
both computed in `predict_window`. -/
def compose_from_probs (label_map : List (ℕ × String)) (probabilities : List ℚ)
    (confidence : ℚ) (target_label : JVal) : GestureResponse :=
  let top_index := np_argmax probabilities
  compose_response label_map probabilities top_index
    (probabilities.getD top_index 0) confidence target_label

/-! ### Landmark geometry (`src/realtime_enhanced.py`) -/

/-- One 3-D landmark point. -/
@[ext]
structure P3 where
  x : ℝ
  y : ℝ
  z : ℝ

/-- Componentwise point difference (`landmarks[i] - landmarks[j]`). -/
def P3.sub (a b : P3) : P3 := ⟨a.x - b.x, a.y - b.y, a.z - b.z⟩

/-- Componentwise addition, used to state translation of a frame. -/
def P3.add (a b : P3) : P3 := ⟨a.x + b.x, a.y + b.y, a.z + b.z⟩

/-- Euclidean norm of a 3-vector (`np.linalg.norm` on one point). -/
noncomputable def P3.norm (a : P3) : ℝ := Real.sqrt (a.x ^ 2 + a.y ^ 2 + a.z ^ 2)

/-- Componentwise division by a scalar (`landmarks / hand_size`, `v1 / v1_norm`). -/
noncomputable def P3.div (a : P3) (c : ℝ) : P3 := ⟨a.x / c, a.y / c, a.z / c⟩

/-- Dot product of two 3-vectors (`np.dot`). -/
def P3.dot (a b : P3) : ℝ := a.x * b.x + a.y * b.y + a.z * b.z

/-- A LandmarkFrame: 21 hand-skeleton points, MediaPipe indexing
(index 0 = wrist; 5, 9, 13, 17 = non-thumb finger bases; 4, 8, 12, 16,
20 = fingertips). -/
def Frame21 := Fin 21 → P3

/-- The wrist-centering step of `normalize_landmarks_enhanced`
(`landmarks[:, :2] -= wrist`): subtract the wrist x and y from every
point's x and y; z is deliberately left untouched (a 2-D centering). -/
def center_frame (L : Frame21) : Frame21 :=
  fun i => ⟨(L i).x - (L 0).x, (L i).y - (L 0).y, (L i).z⟩

/-- The hand-size scale of the (already centered) frame: the mean of
`np.linalg.norm(landmarks[i] - landmarks[0])` over the four non-thumb
finger bases `i` in 5, 9, 13, 17, plus the `1e-6` degeneracy guard. -/
noncomputable def hand_size (C : Frame21) : ℝ :=
  (((C 5).sub (C 0)).norm + ((C 9).sub (C 0)).norm +
      ((C 13).sub (C 0)).norm + ((C 17).sub (C 0)).norm) / 4 + 1 / 1000000

/-- Embedding of `normalize_landmarks_enhanced`
(`src/realtime_enhanced.py` lines 22-40) on a present frame: center by
the wrist (x, y only), then divide every coordinate of the centered
points by the hand size computed from the centered frame.  The `None`
pass-through branch of the source corresponds to the `Option` handling
in the callers. -/
noncomputable def normalize_landmarks_enhanced (L : Frame21) : Frame21 :=
  fun i => (center_frame L i).div (hand_size (center_frame L))

/-- One interior-joint flexion angle of a finger chain
(`extract_relative_features_single_frame`, step 2): `v1`, `v2` are the
vectors from the interior joint `q` to its chain neighbours `p`, `r`,
normalized with an `1e-8` guard, and the angle is
`arccos(clip(dot(v1, v2), -1, 1))`. -/
noncomputable def joint_angle (p q r : P3) : ℝ :=
  let v1 := p.sub q
  let v2 := r.sub q
  let v1u := v1.div (v1.norm + 1 / 100000000)
  let v2u := v2.div (v2.norm + 1 / 100000000)
  Real.arccos (min 1 (max (-1) (v1u.dot v2u)))

/-- Palm center: mean of the wrist and the four non-thumb finger bases
(indices 0, 5, 9, 13, 17), componentwise. -/
noncomputable def palm_center (L : Frame21) : P3 :=
  ⟨((L 0).x + (L 5).x + (L 9).x + (L 13).x + (L 17).x) / 5,
   ((L 0).y + (L 5).y + (L 9).y + (L 13).y + (L 17).y) / 5,
   ((L 0).z + (L 5).z + (L 9).z + (L 13).z + (L 17).z) / 5⟩

/-- A per-frame FeatureVector (length 20 for every produced vector). -/
def FVec := List ℝ

/-- The all-zero 20-dim feature vector (`np.zeros(20)`), used for a
frame with no detected hand and as the padding row. -/
def zeroFVec : FVec := List.replicate 20 (0 : ℝ)

/-- Embedding of `extract_relative_features_single_frame`
(`src/realtime_enhanced.py` lines 43-101).  Fixed order: 5 fingertip
distances from the palm center, then 2 joint angles for each of the 5
finger chains, then 4 consecutive inter-fingertip distances, then the
velocity placeholder 0. -/
noncomputable def extract_relative_features_single_frame (L : Frame21) : FVec :=
  [((L 4).sub (palm_center L)).norm,
   ((L 8).sub (palm_center L)).norm,
   ((L 12).sub (palm_center L)).norm,
   ((L 16).sub (palm_center L)).norm,
   ((L 20).sub (palm_center L)).norm,
   joint_angle (L 1) (L 2) (L 3), joint_angle (L 2) (L 3) (L 4),
   joint_angle (L 5) (L 6) (L 7), joint_angle (L 6) (L 7) (L 8),
   joint_angle (L 9) (L 10) (L 11), joint_angle (L 10) (L 11) (L 12),
   joint_angle (L 13) (L 14) (L 15), joint_angle (L 14) (L 15) (L 16),
   joint_angle (L 17) (L 18) (L 19), joint_angle (L 18) (L 19) (L 20),
   ((L 4).sub (L 8)).norm, ((L 8).sub (L 12)).norm,
   ((L 12).sub (L 16)).norm, ((L 16).sub (L 20)).norm,
   0]

/-! ### Windowing: velocity channel and padding/masking -/

/-- One entry of `np.linalg.norm(np.diff(palm, axis=0), axis=1)`: the
Euclidean norm of the difference of the first five features (the
fingertip-distance block) of the current vector `b` and the previous
vector `a`. -/
noncomputable def palm_step_norm (a b : FVec) : ℝ :=
  Real.sqrt ((((b.take 5).zip (a.take 5)).map (fun p => (p.1 - p.2) ^ 2)).sum)

/-- The velocity channel of a window: `velocities = np.zeros(len(seq))`
and, when the window has more than one element,
`velocities[1:] = np.linalg.norm(np.diff(seq[:, :5], axis=0), axis=1)`.
This code appears verbatim in both `build_feature_sequence`
(`gesture_server.py` lines 84-88) and
`RealtimeEnhancedDetector.process_frame`
(`src/realtime_enhanced.py` lines 156-160). -/
noncomputable def compute_velocities (seq : List FVec) : List ℝ :=
  if 1 < seq.length then
    0 :: (seq.zip seq.tail).map (fun p => palm_step_norm p.1 p.2)
  else
    List.replicate seq.length 0

/-- Overwrite the last slot of every vector of the window with its
velocity (`seq[:, -1] = velocities`), shared by both pipeline paths. -/
noncomputable def set_velocities (seq : List FVec) : List FVec :=
  (seq.zip (compute_velocities seq)).map (fun p => p.1.dropLast ++ [p.2])

/-- Padding/masking of the whole-sequence request path
(`build_feature_sequence`, `gesture_server.py` lines 91-102): if the
window is shorter than `max_len`, append zero rows and emit a mask of
ones followed by zeros; otherwise keep `seq[-max_len:]` (the most
recent `max_len` rows) with an all-ones mask. -/
def pad_and_mask_server {α : Type} (zero : α) (max_len : ℕ) (seq : List α) :
    List α × List ℚ :=
  if seq.length < max_len then
    (seq ++ List.replicate (max_len - seq.length) zero,
     List.replicate seq.length 1 ++ List.replicate (max_len - seq.length) 0)
  else
    (seq.drop (seq.length - max_len), List.replicate max_len 1)

/-- Padding/masking of the incremental buffer path
(`RealtimeEnhancedDetector.process_frame`, `src/realtime_enhanced.py`
lines 163-172): `max_len` is the hardcoded `100`; the short case is
identical to the server path, but the long case keeps
`seq[:max_len]` — the FIRST `max_len` rows — with an all-ones mask. -/
def pad_and_mask_incremental {α : Type} (zero : α) (seq : List α) :
    List α × List ℚ :=
  if seq.length < 100 then
    (seq ++ List.replicate (100 - seq.length) zero,
     List.replicate seq.length 1 ++ List.replicate (100 - seq.length) 0)
  else
    (seq.take 100, List.replicate 100 1)

/-! ### The protocol server (`gesture_server.py`) -/

/-- Shape gate of `predict_window` (`gesture_server.py` lines 106-108):
`frames.ndim == 3 and frames.shape[1:] == (21, 3)` read on a
rectangular nested list (an empty list has ndim 1; a rectangular
`[T][21][3]` list has ndim 3 and shape `(T, 21, 3)`). -/
def sequence_shape_ok (frames : List (List (List ℚ))) : Bool :=
  !frames.isEmpty &&
    frames.all (fun fr => fr.length == 21 && fr.all (fun pt => pt.length == 3))

/-- Interpret one wire-format frame (21 lists of 3 rationals) as a
`Frame21`; only applied behind `sequence_shape_ok`. -/
noncomputable def to_frame (fr : List (List ℚ)) : Frame21 :=
  fun i =>
    let pt := fr.getD i.val []
    ⟨((pt.getD 0 0 : ℚ) : ℝ), ((pt.getD 1 0 : ℚ) : ℝ), ((pt.getD 2 0 : ℚ) : ℝ)⟩

/-- Embedding of `build_feature_sequence` (`gesture_server.py` lines
66-102): empty window gives `None`; otherwise normalize and extract
features per frame (the `normalized is None` branch of the source is
dead here, since elements of a float array are never `None`), compute
and write the velocity channel, then pad/mask.  The padding row width
`seq.shape[1]` is 20, the produced feature width. -/
noncomputable def build_feature_sequence (frames : List (List (List ℚ)))
    (max_len : ℕ) : Option (List FVec × List ℚ) :=
  if frames.isEmpty then none
  else
    let features := frames.map (fun fr =>
      extract_relative_features_single_frame (normalize_landmarks_enhanced (to_frame fr)))
    some (pad_and_mask_server zeroFVec max_len (set_velocities features))

/-- The external Inference Oracle of the server path: the loaded model
composed with the softmax of `predict_window`, taking the padded
feature sequence and the mask to a probability vector and a confidence
scalar. -/
def ServerOracle := List FVec → List ℚ → List ℚ × ℚ

/-- The data `predict_window` hands to `handle_client`. -/
structure Prediction where
  top_index : ℕ
  top_prob : ℚ
  confidence : ℚ
  probabilities : List ℚ

/-- Embedding of `predict_window` (`gesture_server.py` lines 105-126):
reject any window that is not shaped `[T][21][3]` before touching the
model; otherwise run the pipeline, call the oracle and take the argmax
of the probabilities. -/
noncomputable def predict_window (oracle : ServerOracle) (max_len : ℕ)
    (frames : List (List (List ℚ))) : Option Prediction :=
  if sequence_shape_ok frames then
    match build_feature_sequence frames max_len with
    | none => none
    | some sm =>
      let pc := oracle sm.1 sm.2
      let top_index := np_argmax pc.1
      some ⟨top_index, pc.1.getD top_index 0, pc.2, pc.1⟩
  else none

/-- One parsed request line (`handle_client`): the fields the handler
reads.  `frame_count` and `duration` only feed the log line. -/
structure GestureRequest where
  command : Option String
  sequence : Option (List (List (List ℚ)))
  frame_count : Option ℤ
  duration : Option ℚ
  target_label : JVal

/-- Embedding of the per-line body of `handle_client`
(`gesture_server.py` lines 150-193): `stop` commands and missing/empty
sequences are dropped; a `None` from `predict_window` is dropped (no
bytes written); otherwise the composed response is the one line
written back. -/
noncomputable def process_request (oracle : ServerOracle)
    (label_map : List (ℕ × String)) (max_len : ℕ)
    (payload : GestureRequest) : Option GestureResponse :=
  if payload.command == some "stop" then none
  else
    match payload.sequence with
    | none => none
    | some frames =>
      if frames.isEmpty then none
      else
        match predict_window oracle max_len frames with
        | none => none
        | some p =>
          some (compose_response label_map p.probabilities p.top_index p.top_prob
            p.confidence payload.target_label)

/-- One received line of a session: either a line that fails JSON
parsing (or a blank line), or a parsed request. -/
inductive InLine where
  | invalid : InLine
  | msg (payload : GestureRequest) : InLine

/-- The read-process-write loop of `handle_client` over one
connection: the input list is the sequence of received lines (end of
list = client disconnect), the output list is the sequence of response
lines written, in order.  Invalid JSON is logged and skipped; a request
`process_request` maps to `none` contributes zero bytes of response. -/
noncomputable def handle_lines (oracle : ServerOracle)
    (label_map : List (ℕ × String)) (max_len : ℕ) :
    List InLine → List GestureResponse
  | [] => []
  | .invalid :: rest => handle_lines oracle label_map max_len rest
  | .msg p :: rest =>
    match process_request oracle label_map max_len p with
    | none => handle_lines oracle label_map max_len rest
    | some r => r :: handle_lines oracle label_map max_len rest

/-! ### The incremental detector (`RealtimeEnhancedDetector`) -/

/-- The external Inference Oracle of the incremental path:
`predict_top_k(model, features, mask, k=3)` as a function from the
padded sequence and mask to top-k class ids, top-k probabilities
(descending) and the confidence scalar. -/
def TopKOracle := List FVec → List ℚ → List ℕ × List ℚ × ℚ

/-- Constructor configuration of `RealtimeEnhancedDetector`. -/
structure DetectorConfig where
  buffer_size : ℕ
  confidence_thresh : ℚ

/-- Mutable state of `RealtimeEnhancedDetector`. -/
structure DetectorState where
  feature_buffer : List FVec
  cooldown_frames : ℕ
  top3_predictions : List ℕ
  top3_probabilities : List ℚ
  model_confidence : ℚ

/-- The per-frame result dict returned by `process_frame`. -/
structure DetResult where
  top3_classes : List ℕ
  top3_probs : List ℚ
  model_confidence : ℚ
  buffer_fill : ℚ

/-- State after `__init__`: empty buffer, no cooldown, empty stored
top-3, zero confidence. -/
def initial_state : DetectorState := ⟨[], 0, [], [], 0⟩

/-- `deque(maxlen).append`: append at the right, evicting from the left
whatever exceeds the capacity. -/
def deque_push (maxlen : ℕ) (buf : List FVec) (v : FVec) : List FVec :=
  let b := buf ++ [v]
  if maxlen < b.length then b.drop (b.length - maxlen) else b

/-- Features of one incoming frame (`process_frame` lines 125-129):
normalize-and-extract for a detected hand, the zero placeholder vector
otherwise. -/
noncomputable def frame_features (landmarks : Option Frame21) : FVec :=
  match landmarks with
  | some lm => extract_relative_features_single_frame (normalize_landmarks_enhanced lm)
  | none => zeroFVec

/-- The snapshot block of `process_frame` (`src/realtime_enhanced.py`
lines 152-172): write the velocity channel over the current window
contents, then pad/mask to the hardcoded `max_len = 100`. -/
noncomputable def snapshot (buf : List FVec) : List FVec × List ℚ :=
  pad_and_mask_incremental zeroFVec (set_velocities buf)

/-- Embedding of `RealtimeEnhancedDetector.process_frame`
(`src/realtime_enhanced.py` lines 122-204).  In order: push the frame's
features; if cooling, decrement the counter and re-emit the stored
result with an updated `buffer_fill`; else if the buffer holds fewer
than half its capacity (`len < buffer_size * 0.5`, exact as
`2 * len < buffer_size`), emit the empty result; else snapshot the
buffer (velocity channel, pad to the hardcoded `max_len = 100`), call
the oracle, store its output, start a 30-frame cooldown when
`top_probs[0] >= confidence_thresh and conf >= 0.5`, and emit the fresh
result with `buffer_fill = 1.0`. -/
noncomputable def process_frame (cfg : DetectorConfig) (oracle : TopKOracle)
    (s : DetectorState) (landmarks : Option Frame21) : DetectorState × DetResult :=
  let buf := deque_push cfg.buffer_size s.feature_buffer (frame_features landmarks)
  if 0 < s.cooldown_frames then
    ({ s with feature_buffer := buf, cooldown_frames := s.cooldown_frames - 1 },
     { top3_classes := s.top3_predictions, top3_probs := s.top3_probabilities,
       model_confidence := s.model_confidence,
       buffer_fill := (buf.length : ℚ) / (cfg.buffer_size : ℚ) })
  else if 2 * buf.length < cfg.buffer_size then
    ({ s with feature_buffer := buf },
     { top3_classes := [], top3_probs := [], model_confidence := 0,
       buffer_fill := (buf.length : ℚ) / (cfg.buffer_size : ℚ) })
  else
    let sm := snapshot buf
    let out := oracle sm.1 sm.2
    ({ feature_buffer := buf,
       cooldown_frames :=
         if cfg.confidence_thresh ≤ out.2.1.headI ∧ (1 : ℚ) / 2 ≤ out.2.2 then 30
         else s.cooldown_frames,
       top3_predictions := out.1, top3_probabilities := out.2.1,
       model_confidence := out.2.2 },
     { top3_classes := out.1, top3_probs := out.2.1, model_confidence := out.2.2,
       buffer_fill := 1 })

/-- Fold `process_frame` over a list of incoming frames, keeping the
state. -/
noncomputable def run_frames (cfg : DetectorConfig) (oracle : TopKOracle)
    (lms : List (Option Frame21)) (s : DetectorState) : DetectorState :=
  lms.foldl (fun st lm => (process_frame cfg oracle st lm).1) s

/-- Detector states reachable from `__init__` by processing frames,
with arbitrary oracle behaviour at every step. -/
inductive Reachable (cfg : DetectorConfig) : DetectorState → Prop where
  | init : Reachable cfg initial_state
  | step (s : DetectorState) (oracle : TopKOracle) (lm : Option Frame21) :
      Reachable cfg s → Reachable cfg (process_frame cfg oracle s lm).1

/-- Translation of a whole frame by a constant vector, used to state
the normalization-invariance property. -/
def translate (L : Frame21) (d : P3) : Frame21 := fun i => (L i).add d

/-- A concrete non-degenerate frame: the wrist at the origin and every
other landmark at distance 1 along the x axis. -/
def demo_frame : Frame21 := fun i => if i.val = 0 then ⟨0, 0, 0⟩ else ⟨1, 0, 0⟩

/-- A concrete detector configuration: the default
`buffer_size = 100` and `confidence_thresh = 0.6`. -/
def demo_cfg : DetectorConfig := ⟨100, 3/5⟩

/-- A concrete detector state: 49 buffered zero vectors, no cooldown,
nothing stored. -/
def demo_state : DetectorState := ⟨List.replicate 49 zeroFVec, 0, [], [], 0⟩

/-- A concrete constant oracle for witnesses: top-3 classes 1, 0, 2
with probabilities 0.7, 0.2, 0.1 and confidence 0.9. -/
def demo_oracle : TopKOracle := fun _ _ => ([1, 0, 2], [7/10, 2/10, 1/10], 9/10)

/-! ## Theorems -/

/-- C7: the composer scans the LabelMap linearly and takes the first
entry whose name equals the (nonempty) target label case-insensitively;
the emitted `prob` is that class's probability and `match` is true
exactly when that class id equals the argmax class id. -/
theorem C7_target_first_match (label_map : List (ℕ × String)) (probs : List ℚ)
    (conf : ℚ) (t : String) (cid : ℕ) (nm : String)
    (ht : t ≠ "")
    (hfind : label_map.find? (fun (p : ℕ × String) => py_lower p.2 == py_lower t) =
      some (cid, nm)) :
    (compose_from_probs label_map probs conf (.str t)).prob = probs.getD cid 0 ∧
    (compose_from_probs label_map probs conf (.str t)).matched =
      (cid == np_argmax probs) := by
  have hbne : (t != "") = true := bne_iff_ne.mpr ht
  unfold compose_from_probs compose_response
  simp [hbne, hfind]

/-- Witness for C7 at the spec's two examples: probabilities
0.1, 0.7, 0.2 with labels a, b, c; target B yields prob 0.7 and a
match, target c yields prob 0.2 and no match. -/
theorem C7_target_first_match_witness :
    (compose_from_probs [(0, "a"), (1, "b"), (2, "c")] [1/10, 7/10, 2/10] (9/10)
      (.str "B")).prob = 7/10 ∧
    (compose_from_probs [(0, "a"), (1, "b"), (2, "c")] [1/10, 7/10, 2/10] (9/10)
      (.str "B")).matched = true ∧
    (compose_from_probs [(0, "a"), (1, "b"), (2, "c")] [1/10, 7/10, 2/10] (9/10)
      (.str "c")).prob = 2/10 ∧
    (compose_from_probs [(0, "a"), (1, "b"), (2, "c")] [1/10, 7/10, 2/10] (9/10)
      (.str "c")).matched = false := by
  have hargmax : np_argmax [1/10, 7/10, 2/10] = 1 := by
    norm_num [np_argmax, List.enum, List.enumFrom]
  have hB := C7_target_first_match [(0, "a"), (1, "b"), (2, "c")]
    [1/10, 7/10, 2/10] (9/10) "B" 1 "b" (by decide) (by decide)
  have hc := C7_target_first_match [(0, "a"), (1, "b"), (2, "c")]
    [1/10, 7/10, 2/10] (9/10) "c" 2 "c" (by decide) (by decide)
  refine ⟨hB.1.trans rfl, hB.2.trans ?_, hc.1.trans rfl, hc.2.trans ?_⟩ <;>
    (rw [hargmax]; rfl)

/-- C1 (amended): a supplied nonempty target label that matches no
LabelMap value case-insensitively yields an emitted target probability
of exactly 0.0 (not the top-1 probability) and `match` false. -/
theorem C1_unknown_target_zero (label_map : List (ℕ × String)) (probs : List ℚ)
    (conf : ℚ) (t : String) (ht : t ≠ "")
    (hfind : label_map.find? (fun (p : ℕ × String) => py_lower p.2 == py_lower t) =
      none) :
    (compose_from_probs label_map probs conf (.str t)).prob = 0 ∧
    (compose_from_probs label_map probs conf (.str t)).matched = false := by
  have hbne : (t != "") = true := bne_iff_ne.mpr ht
  unfold compose_from_probs compose_response
  simp [hbne, hfind]

/-- Witness for the amended C1: target z is absent from the label map
a, b, c, so the emitted probability is 0 and `match` is false. -/
theorem C1_unknown_target_zero_witness :
    (compose_from_probs [(0, "a"), (1, "b"), (2, "c")] [1/10, 7/10, 2/10] (9/10)
      (.str "z")).prob = 0 ∧
    (compose_from_probs [(0, "a"), (1, "b"), (2, "c")] [1/10, 7/10, 2/10] (9/10)
      (.str "z")).matched = false :=
  C1_unknown_target_zero [(0, "a"), (1, "b"), (2, "c")] [1/10, 7/10, 2/10] (9/10)
    "z" (by decide) (by decide)

/-- Counterexample to C1 as stated: with probabilities 0.1, 0.7, 0.2,
labels a, b, c and unmatched target z, the emitted `prob` is 0 while
the top-1 probability is 0.7, so `prob` does NOT equal the top-1
probability. -/
theorem C1_counterexample :
    (compose_from_probs [(0, "a"), (1, "b"), (2, "c")] [1/10, 7/10, 2/10] (9/10)
      (.str "z")).prob = 0 ∧
    (compose_from_probs [(0, "a"), (1, "b"), (2, "c")] [1/10, 7/10, 2/10] (9/10)
      (.str "z")).top1_prob = 7/10 ∧
    ¬ ((compose_from_probs [(0, "a"), (1, "b"), (2, "c")] [1/10, 7/10, 2/10] (9/10)
      (.str "z")).prob =
      (compose_from_probs [(0, "a"), (1, "b"), (2, "c")] [1/10, 7/10, 2/10] (9/10)
        (.str "z")).top1_prob) := by
  have hargmax : np_argmax [1/10, 7/10, 2/10] = 1 := by
    norm_num [np_argmax, List.enum, List.enumFrom]
  have h1 : (compose_from_probs [(0, "a"), (1, "b"), (2, "c")] [1/10, 7/10, 2/10]
      (9/10) (.str "z")).prob = 0 := rfl
  have h2 : (compose_from_probs [(0, "a"), (1, "b"), (2, "c")] [1/10, 7/10, 2/10]
      (9/10) (.str "z")).top1_prob = 7/10 := by
    simp only [compose_from_probs, compose_response, hargmax]
    rfl
  exact ⟨h1, h2, by rw [h1, h2]; norm_num⟩

/-- C10 (amended): when `target_label` is the empty string or not a
string, the target scan is skipped, so `prob` equals the top-1
probability and `match` is false; the echoed `target_label` field is
the original value when it is truthy and the empty string otherwise. -/
theorem C10_non_string_target (label_map : List (ℕ × String)) (probs : List ℚ)
    (conf : ℚ) (tl : JVal)
    (h : ∀ s : String, tl = .str s → s = "") :
    (compose_from_probs label_map probs conf tl).prob =
      (compose_from_probs label_map probs conf tl).top1_prob ∧
    (compose_from_probs label_map probs conf tl).matched = false ∧
    (compose_from_probs label_map probs conf tl).target_label =
      (if tl.truthy then tl else .str "") := by
  unfold compose_from_probs compose_response
  cases tl with
  | null => simp [JVal.truthy]
  | num q => simp [JVal.truthy]
  | bool b => simp [JVal.truthy]
  | str s =>
    have hs : s = "" := h s rfl
    subst hs
    simp [JVal.truthy]

/-- Witness for the amended C10 at `target_label = null`. -/
theorem C10_non_string_target_witness :
    (compose_from_probs [(0, "a")] [1] 1 .null).prob =
      (compose_from_probs [(0, "a")] [1] 1 .null).top1_prob ∧
    (compose_from_probs [(0, "a")] [1] 1 .null).matched = false ∧
    (compose_from_probs [(0, "a")] [1] 1 .null).target_label =
      (if JVal.null.truthy then JVal.null else .str "") :=
  C10_non_string_target [(0, "a")] [1] 1 .null (fun _ h => JVal.noConfusion h)

/-- Counterexample to C10 as stated: a numeric `target_label` 5 skips
the scan (`prob` = top-1 probability, `match` false), but the echoed
`target_label` field is the number 5 itself, not the empty string
(`target_label or ""` keeps any truthy value). -/
theorem C10_counterexample :
    (compose_from_probs [(0, "a")] [1] 1 (.num 5)).prob =
      (compose_from_probs [(0, "a")] [1] 1 (.num 5)).top1_prob ∧
    (compose_from_probs [(0, "a")] [1] 1 (.num 5)).matched = false ∧
    ¬ ((compose_from_probs [(0, "a")] [1] 1 (.num 5)).target_label = .str "") := by
  decide

/-- C2 (amended): both paths emit a padded sequence of length
`max_len`; for T less than `max_len` both append zero rows after the
window and emit a mask of exactly T ones followed by zeros; for
T at least `max_len` the whole-sequence request path keeps the most
recent `max_len` rows (`seq[-max_len:]`) with an all-ones mask, while
the incremental buffer path keeps the FIRST `max_len` rows
(`seq[:max_len]`, `max_len` hardcoded to 100) — the oldest, not the
most recent — also with an all-ones mask. -/
theorem C2_padding_behaviour (α : Type) (zero : α) (M : ℕ) (seq : List α) :
    (seq.length < M →
      pad_and_mask_server zero M seq =
        (seq ++ List.replicate (M - seq.length) zero,
         List.replicate seq.length 1 ++ List.replicate (M - seq.length) 0)) ∧
    (M ≤ seq.length →
      (pad_and_mask_server zero M seq).1 = seq.drop (seq.length - M) ∧
      (pad_and_mask_server zero M seq).1.length = M ∧
      (pad_and_mask_server zero M seq).2 = List.replicate M 1) ∧
    (seq.length < 100 →
      pad_and_mask_incremental zero seq =
        (seq ++ List.replicate (100 - seq.length) zero,
         List.replicate seq.length 1 ++ List.replicate (100 - seq.length) 0)) ∧
    (100 ≤ seq.length →
      (pad_and_mask_incremental zero seq).1 = seq.take 100 ∧
      (pad_and_mask_incremental zero seq).1.length = 100 ∧
      (pad_and_mask_incremental zero seq).2 = List.replicate 100 1) := by
  refine ⟨fun h => ?_, fun h => ?_, fun h => ?_, fun h => ?_⟩
  · unfold pad_and_mask_server
    rw [if_pos h]
  · unfold pad_and_mask_server
    rw [if_neg (by omega)]
    exact ⟨rfl, by rw [List.length_drop]; omega, rfl⟩
  · unfold pad_and_mask_incremental
    rw [if_pos h]
  · unfold pad_and_mask_incremental
    rw [if_neg (by omega)]
    exact ⟨rfl, by rw [List.length_take]; omega, rfl⟩

/-- Witness for C2 at concrete windows: a length-2 window padded to 3,
a length-3 window truncated by the server path to the last 2, and a
length-101 window truncated by the incremental path to the first
100. -/
theorem C2_padding_behaviour_witness :
    pad_and_mask_server (0 : ℕ) 3 [5, 6] =
      ([5, 6] ++ List.replicate 1 0, List.replicate 2 1 ++ List.replicate 1 0) ∧
    (pad_and_mask_server (0 : ℕ) 2 [5, 6, 7]).1 = [5, 6, 7].drop 1 ∧
    (pad_and_mask_incremental (0 : ℕ) (List.range 101)).1 =
      (List.range 101).take 100 :=
  ⟨(C2_padding_behaviour ℕ 0 3 [5, 6]).1 (by decide),
   ((C2_padding_behaviour ℕ 0 2 [5, 6, 7]).2.1 (by decide)).1,
   ((C2_padding_behaviour ℕ 0 0 (List.range 101)).2.2.2 (by simp)).1⟩

/-- Counterexample to C2 as stated: pushed through the incremental
buffer path, a window of 101 distinct entries is truncated to its
FIRST 100 entries, which differ from the most recent 100. -/
theorem C2_counterexample :
    (pad_and_mask_incremental (0 : ℕ) (List.range 101)).1 = List.range 100 ∧
    (pad_and_mask_incremental (0 : ℕ) (List.range 101)).1 ≠
      (List.range 101).drop 1 := by
  constructor
  · decide
  · decide

/-- C8: in the snapshot taken for inference, the velocity slot (the
last, 20th slot) of the vector at position 0 is exactly zero, and at
every position i with 1 ≤ i < T it is the Euclidean norm of the
difference of the first five entries of the window's vectors at i and
i−1; a window of length 0 or 1 yields zero velocities without error.
`set_velocities` is the snapshot transform applied verbatim by both
`build_feature_sequence` (whole-sequence request path) and
`process_frame` (incremental buffer path). -/
theorem C8_velocity_channel (seq : List FVec) :
    (set_velocities seq).length = seq.length ∧
    set_velocities [] = ([] : List FVec) ∧
    (∀ v : FVec, set_velocities [v] = [v.dropLast ++ [0]]) ∧
    (∀ i, i < seq.length →
      ((set_velocities seq).getD i []).getLast? =
        some (if i = 0 then 0
          else palm_step_norm (seq.getD (i - 1) []) (seq.getD i []))) := by
  have hvlen : (compute_velocities seq).length = seq.length := by
    unfold compute_velocities
    by_cases h : 1 < seq.length
    · rw [if_pos h]
      simp [List.length_zip, List.length_tail]
      omega
    · rw [if_neg h]
      simp
  have hlen : (set_velocities seq).length = seq.length := by
    unfold set_velocities
    simp [List.length_zip, hvlen]
  refine ⟨hlen, rfl, fun v => ?_, fun i hi => ?_⟩
  · unfold set_velocities compute_velocities
    simp
  · have hiv : i < (compute_velocities seq).length := by omega
    have hmain : (set_velocities seq).getD i [] =
        (seq.getD i []).dropLast ++ [(compute_velocities seq).getD i 0] := by
      unfold set_velocities
      rw [List.getD_eq_getElem _ _ (show i < ((seq.zip (compute_velocities seq)).map
        (fun p => p.1.dropLast ++ [p.2])).length by
          simp [List.length_zip]
          omega)]
      rw [List.getD_eq_getElem _ _ hi, List.getD_eq_getElem _ _ hiv]
      simp [List.getElem_map, List.getElem_zip]
    rw [hmain, List.getLast?_concat]
    congr 1
    by_cases h1 : 1 < seq.length
    · have hcv : compute_velocities seq =
          0 :: (seq.zip seq.tail).map (fun p => palm_step_norm p.1 p.2) := by
        unfold compute_velocities
        rw [if_pos h1]
      rw [hcv]
      cases i with
      | zero => simp
      | succ j =>
        rw [if_neg (Nat.succ_ne_zero j)]
        have hj : j < ((seq.zip seq.tail).map
            (fun p => palm_step_norm p.1 p.2)).length := by
          rw [hcv] at hiv
          simpa using Nat.lt_of_succ_lt_succ hiv
        have hjz : j < (seq.zip seq.tail).length := by simpa using hj
        have hjs : j < seq.length := by
          simp [List.length_zip, List.length_tail] at hjz
          omega
        have hjt : j < seq.tail.length := by
          simp [List.length_tail]
          omega
        rw [List.getD_cons_succ, List.getD_eq_getElem _ _ hj]
        rw [List.getElem_map, List.getElem_zip]
        rw [List.getD_eq_getElem _ _ (show j + 1 - 1 < seq.length by omega),
          List.getD_eq_getElem _ _ hi]
        simp [List.getElem_tail]
    · have h0 : i = 0 := by omega
      subst h0
      have hcv : compute_velocities seq = List.replicate seq.length 0 := by
        unfold compute_velocities
        rw [if_neg h1]
      rw [hcv, if_pos rfl]
      rw [List.getD_eq_getElem _ _ (by simpa using hi)]
      simp

/-- Witness for C8 on a concrete two-frame window of zero vectors: the
velocity slot at position 1 is the palm-block step norm of the two
vectors. -/
theorem C8_velocity_channel_witness :
    ((set_velocities [zeroFVec, zeroFVec]).getD 1 []).getLast? =
      some (palm_step_norm zeroFVec zeroFVec) := by
  have h := (C8_velocity_channel [zeroFVec, zeroFVec]).2.2.2 1 (by decide)
  simpa using h

/-- C3 (amended): translating every landmark of a frame by a constant
vector whose z-component is zero yields, after normalization, exactly
the same frame — the 2-D wrist-centering removes the x and y
translation and the hand size is computed from centered differences.
A translation with a nonzero z-component is NOT removed (see the
counterexample), because the centering deliberately leaves z
untouched. -/
theorem C3_translation_invariance (L : Frame21) (d : P3) (hz : d.z = 0) :
    normalize_landmarks_enhanced (translate L d) = normalize_landmarks_enhanced L := by
  have hc : center_frame (translate L d) = center_frame L := by
    funext i
    unfold center_frame translate P3.add
    simp only [P3.mk.injEq]
    refine ⟨by ring, by ring, by rw [hz]; ring⟩
  unfold normalize_landmarks_enhanced
  rw [hc]

/-- Witness for the amended C3: an x, y translation of the concrete
demo frame normalizes to the same frame. -/
theorem C3_translation_invariance_witness :
    normalize_landmarks_enhanced (translate demo_frame ⟨2, 3, 0⟩) =
      normalize_landmarks_enhanced demo_frame :=
  C3_translation_invariance demo_frame ⟨2, 3, 0⟩ rfl

/-- Counterexample to C3 as stated: translating the demo frame by the
constant vector (0, 0, 1) changes the normalized output — the z channel
of the wrist moves from 0 to 1/(1 + 1e-6) — because wrist-centering is
2-D and does not remove z translation. -/
theorem C3_counterexample :
    normalize_landmarks_enhanced (translate demo_frame ⟨0, 0, 1⟩) ≠
      normalize_landmarks_enhanced demo_frame := by
  intro h
  have h0 := congrArg P3.z (congrFun h 0)
  have hs1 : hand_size (center_frame (translate demo_frame ⟨0, 0, 1⟩)) =
      1 + 1 / 1000000 := by
    unfold hand_size P3.norm P3.sub center_frame translate P3.add
    simp +decide [demo_frame]
    norm_num
  have hs2 : hand_size (center_frame demo_frame) = 1 + 1 / 1000000 := by
    unfold hand_size P3.norm P3.sub center_frame
    simp +decide [demo_frame]
    norm_num
  have hl : (normalize_landmarks_enhanced (translate demo_frame ⟨0, 0, 1⟩) 0).z =
      1 / (1 + 1 / 1000000) := by
    unfold normalize_landmarks_enhanced P3.div
    rw [hs1]
    simp +decide [center_frame, translate, P3.add, demo_frame]
  have hr : (normalize_landmarks_enhanced demo_frame 0).z = 0 := by
    unfold normalize_landmarks_enhanced P3.div
    rw [hs2]
    simp +decide [center_frame, demo_frame]
  rw [hl, hr] at h0
  norm_num at h0

/-- C6: a request whose `sequence` is a (rectangular) frame list not
shaped `[T][21][3]` — for example frames of 20 points, or points of a
wrong arity — produces no response at all (`process_request` yields
`none`, so zero bytes are written), leaves the oracle uncalled (the
conclusion holds for the given oracle uniformly, and the right-hand
sides never mention it), and the session loop continues with the next
line on the same connection. -/
theorem C6_shape_mismatch_dropped (oracle : ServerOracle)
    (label_map : List (ℕ × String)) (max_len : ℕ)
    (p : GestureRequest) (frames : List (List (List ℚ))) (rest : List InLine)
    (m k : ℕ)
    (hcmd : p.command ≠ some "stop")
    (hseq : p.sequence = some frames)
    (hne : frames ≠ [])
    (hrect : ∀ fr ∈ frames, fr.length = m ∧ ∀ pt ∈ fr, pt.length = k)
    (hbad : ¬(m = 21 ∧ k = 3)) :
    process_request oracle label_map max_len p = none ∧
    handle_lines oracle label_map max_len (.msg p :: rest) =
      handle_lines oracle label_map max_len rest := by
  have hshape : sequence_shape_ok frames = false := by
    obtain ⟨f, fs, rfl⟩ := List.exists_cons_of_ne_nil hne
    obtain ⟨hfl, hfp⟩ := hrect f (List.mem_cons_self f fs)
    unfold sequence_shape_ok
    by_cases hm : m = 21
    · subst hm
      have hk : k ≠ 3 := fun hk3 => hbad ⟨rfl, hk3⟩
      have hfne : f ≠ [] := by
        intro hfe
        rw [hfe] at hfl
        simp at hfl
      obtain ⟨pt, pts, rfl⟩ := List.exists_cons_of_ne_nil hfne
      have hptl : pt.length = k := hfp pt (List.mem_cons_self pt pts)
      have hk3 : (pt.length == 3) = false := by
        rw [hptl]
        exact beq_eq_false_iff_ne.mpr hk
      simp [hfl, hk3]
    · have hm21 : (f.length == 21) = false := by
        rw [hfl]
        exact beq_eq_false_iff_ne.mpr hm
      simp [hm21]
  have hpred : predict_window oracle max_len frames = none := by
    unfold predict_window
    simp [hshape]
  have hie : frames.isEmpty = false := by
    cases frames with
    | nil => exact absurd rfl hne
    | cons a l => rfl
  have hc : (p.command == some "stop") = false := beq_eq_false_iff_ne.mpr hcmd
  have hproc : process_request oracle label_map max_len p = none := by
    unfold process_request
    rw [hc, hseq]
    simp [hie, hpred]
  refine ⟨hproc, ?_⟩
  simp [handle_lines, hproc]

/-- Witness for C6: a request with one frame of 20 points produces no
response and leaves the loop identical to one without the request. -/
theorem C6_shape_mismatch_dropped_witness :
    process_request (fun _ _ => ([], 0)) [] 100
      ⟨none, some [List.replicate 20 [0, 0, 0]], none, none, .null⟩ = none ∧
    handle_lines (fun _ _ => ([], 0)) [] 100
      [.msg ⟨none, some [List.replicate 20 [0, 0, 0]], none, none, .null⟩] =
      handle_lines (fun _ _ => ([], 0)) [] 100 [] :=
  C6_shape_mismatch_dropped (fun _ _ => ([], 0)) [] 100
    ⟨none, some [List.replicate 20 [0, 0, 0]], none, none, .null⟩
    [List.replicate 20 [0, 0, 0]] [] 20 3
    (by decide) rfl (by decide) (by decide) (by decide)

/-- Length of a bounded-deque append: one more than before, capped at
the capacity. -/
theorem deque_push_length (maxlen : ℕ) (buf : List FVec) (v : FVec) :
    (deque_push maxlen buf v).length = min (buf.length + 1) maxlen := by
  unfold deque_push
  by_cases h : maxlen < (buf ++ [v]).length
  · rw [if_pos h, List.length_drop]
    simp only [List.length_append, List.length_singleton] at h ⊢
    omega
  · rw [if_neg h]
    simp only [List.length_append, List.length_singleton] at h ⊢
    omega

/-- The cooling branch of `process_frame` (`src/realtime_enhanced.py`
lines 133-141): the buffer still grows, the counter decrements, and the
stored result is re-emitted; the right-hand side does not mention the
oracle. -/
theorem process_frame_cooling (cfg : DetectorConfig) (oracle : TopKOracle)
    (s : DetectorState) (lm : Option Frame21) (h : 0 < s.cooldown_frames) :
    process_frame cfg oracle s lm =
      ({ s with
          feature_buffer := deque_push cfg.buffer_size s.feature_buffer (frame_features lm),
          cooldown_frames := s.cooldown_frames - 1 },
       { top3_classes := s.top3_predictions, top3_probs := s.top3_probabilities,
         model_confidence := s.model_confidence,
         buffer_fill :=
           ((deque_push cfg.buffer_size s.feature_buffer (frame_features lm)).length : ℚ) /
             (cfg.buffer_size : ℚ) }) := by
  simp only [process_frame]
  rw [if_pos h]

/-- The buffer-wait branch of `process_frame` (lines 143-150): with no
cooldown and the window below half capacity, the empty result is
emitted; the right-hand side does not mention the oracle. -/
theorem process_frame_waiting (cfg : DetectorConfig) (oracle : TopKOracle)
    (s : DetectorState) (lm : Option Frame21)
    (h0 : s.cooldown_frames = 0)
    (hlt : 2 * (deque_push cfg.buffer_size s.feature_buffer (frame_features lm)).length <
      cfg.buffer_size) :
    process_frame cfg oracle s lm =
      ({ s with
          feature_buffer := deque_push cfg.buffer_size s.feature_buffer (frame_features lm) },
       { top3_classes := [], top3_probs := [], model_confidence := 0,
         buffer_fill :=
           ((deque_push cfg.buffer_size s.feature_buffer (frame_features lm)).length : ℚ) /
             (cfg.buffer_size : ℚ) }) := by
  simp only [process_frame]
  rw [if_neg (by omega : ¬ 0 < s.cooldown_frames), if_pos hlt]

/-- The inference branch of `process_frame` (lines 152-204): with no
cooldown and the window at or above half capacity, the oracle is called
on the snapshot, its output is stored and emitted, the cooldown starts
at 30 when both thresholds are crossed, and `buffer_fill` is the
constant 1. -/
theorem process_frame_infer (cfg : DetectorConfig) (oracle : TopKOracle)
    (s : DetectorState) (lm : Option Frame21)
    (h0 : s.cooldown_frames = 0)
    (hge : cfg.buffer_size ≤
      2 * (deque_push cfg.buffer_size s.feature_buffer (frame_features lm)).length) :
    process_frame cfg oracle s lm =
      ({ feature_buffer := deque_push cfg.buffer_size s.feature_buffer (frame_features lm),
         cooldown_frames :=
           if cfg.confidence_thresh ≤
               (oracle (snapshot (deque_push cfg.buffer_size s.feature_buffer (frame_features lm))).1
                 (snapshot (deque_push cfg.buffer_size s.feature_buffer (frame_features lm))).2).2.1.headI ∧
              (1 : ℚ) / 2 ≤
               (oracle (snapshot (deque_push cfg.buffer_size s.feature_buffer (frame_features lm))).1
                 (snapshot (deque_push cfg.buffer_size s.feature_buffer (frame_features lm))).2).2.2
           then 30 else s.cooldown_frames,
         top3_predictions :=
           (oracle (snapshot (deque_push cfg.buffer_size s.feature_buffer (frame_features lm))).1
             (snapshot (deque_push cfg.buffer_size s.feature_buffer (frame_features lm))).2).1,
         top3_probabilities :=
           (oracle (snapshot (deque_push cfg.buffer_size s.feature_buffer (frame_features lm))).1
             (snapshot (deque_push cfg.buffer_size s.feature_buffer (frame_features lm))).2).2.1,
         model_confidence :=
           (oracle (snapshot (deque_push cfg.buffer_size s.feature_buffer (frame_features lm))).1
             (snapshot (deque_push cfg.buffer_size s.feature_buffer (frame_features lm))).2).2.2 },
       { top3_classes :=
           (oracle (snapshot (deque_push cfg.buffer_size s.feature_buffer (frame_features lm))).1
             (snapshot (deque_push cfg.buffer_size s.feature_buffer (frame_features lm))).2).1,
         top3_probs :=
           (oracle (snapshot (deque_push cfg.buffer_size s.feature_buffer (frame_features lm))).1
             (snapshot (deque_push cfg.buffer_size s.feature_buffer (frame_features lm))).2).2.1,
         model_confidence :=
           (oracle (snapshot (deque_push cfg.buffer_size s.feature_buffer (frame_features lm))).1
             (snapshot (deque_push cfg.buffer_size s.feature_buffer (frame_features lm))).2).2.2,
         buffer_fill := 1 }) := by
  simp only [process_frame]
  rw [if_neg (by omega : ¬ 0 < s.cooldown_frames), if_neg (by omega)]

/-- Every reachable detector state has a buffer within capacity, and
can only be cooling if the buffer already reached half capacity: the
cooldown is set only by an inference, which the gate only allows at or
above half capacity, and the buffer never shrinks below that
afterwards. -/
theorem reachable_cooldown_gate (cfg : DetectorConfig) (s : DetectorState)
    (h : Reachable cfg s) :
    s.feature_buffer.length ≤ cfg.buffer_size ∧
    (0 < s.cooldown_frames → cfg.buffer_size ≤ 2 * s.feature_buffer.length) := by
  induction h with
  | init => simp [initial_state]
  | step s' oracle lm hr ih =>
    by_cases hc : 0 < s'.cooldown_frames
    · rw [process_frame_cooling cfg oracle s' lm hc]
      have hgate := ih.2 hc
      constructor
      · simp only [deque_push_length]
        omega
      · intro _
        simp only [deque_push_length]
        omega
    · have h0 : s'.cooldown_frames = 0 := by omega
      by_cases hlt : 2 * (deque_push cfg.buffer_size s'.feature_buffer
          (frame_features lm)).length < cfg.buffer_size
      · rw [process_frame_waiting cfg oracle s' lm h0 hlt]
        constructor
        · simp only [deque_push_length]
          omega
        · intro hpos
          simp only at hpos
          omega
      · push_neg at hlt
        rw [process_frame_infer cfg oracle s' lm h0 hlt]
        constructor
        · simp only [deque_push_length]
          omega
        · intro _
          exact hlt

/-- C5: in every reachable detector state (cooling included), a frame
processed while the window holds fewer than half its capacity takes the
buffer-wait branch: the state only accumulates the new features and the
emitted result has empty top-k lists and 0.0 confidence.  The
right-hand side never mentions the oracle, so the oracle is not
called.  (Cooling states with a below-half window are unreachable:
`reachable_cooldown_gate`.) -/
theorem C5_half_capacity_gate (cfg : DetectorConfig) (oracle : TopKOracle)
    (s : DetectorState) (lm : Option Frame21)
    (hreach : Reachable cfg s)
    (hlt : 2 * (deque_push cfg.buffer_size s.feature_buffer (frame_features lm)).length <
      cfg.buffer_size) :
    process_frame cfg oracle s lm =
      ({ s with
          feature_buffer := deque_push cfg.buffer_size s.feature_buffer (frame_features lm) },
       { top3_classes := [], top3_probs := [], model_confidence := 0,
         buffer_fill :=
           ((deque_push cfg.buffer_size s.feature_buffer (frame_features lm)).length : ℚ) /
             (cfg.buffer_size : ℚ) }) := by
  have hinv := reachable_cooldown_gate cfg s hreach
  have h0 : s.cooldown_frames = 0 := by
    by_contra hne
    have hgate := hinv.2 (Nat.pos_of_ne_zero hne)
    rw [deque_push_length] at hlt
    omega
  exact process_frame_waiting cfg oracle s lm h0 hlt

/-- Witness for C5 at the freshly initialized detector (reachable by
construction): the first processed frame leaves a 1-element window,
far below half of the 100 capacity, so the empty result is emitted. -/
theorem C5_half_capacity_gate_witness :
    process_frame demo_cfg (fun _ _ => ([1], [1], 1)) initial_state none =
      ({ initial_state with
          feature_buffer :=
            deque_push demo_cfg.buffer_size initial_state.feature_buffer
              (frame_features none) },
       { top3_classes := [], top3_probs := [], model_confidence := 0,
         buffer_fill :=
           ((deque_push demo_cfg.buffer_size initial_state.feature_buffer
             (frame_features none)).length : ℚ) / (demo_cfg.buffer_size : ℚ) }) := by
  refine C5_half_capacity_gate demo_cfg _ initial_state none Reachable.init ?_
  rw [deque_push_length]
  simp [initial_state, demo_cfg]

/-- C9: whenever the detector actually runs inference (no cooldown,
window at or above half capacity), the emitted `buffer_fill` is the
constant 1.0; when the window is not actually full this overstates the
true fraction, which is below 1. -/
theorem C9_buffer_fill_overstated (cfg : DetectorConfig) (oracle : TopKOracle)
    (s : DetectorState) (lm : Option Frame21)
    (h0 : s.cooldown_frames = 0)
    (hge : cfg.buffer_size ≤
      2 * (deque_push cfg.buffer_size s.feature_buffer (frame_features lm)).length)
    (hlt : (deque_push cfg.buffer_size s.feature_buffer (frame_features lm)).length <
      cfg.buffer_size) :
    (process_frame cfg oracle s lm).2.buffer_fill = 1 ∧
    ((deque_push cfg.buffer_size s.feature_buffer (frame_features lm)).length : ℚ) /
      (cfg.buffer_size : ℚ) < 1 := by
  constructor
  · rw [process_frame_infer cfg oracle s lm h0 hge]
  · have hbs : 0 < cfg.buffer_size := by omega
    rw [div_lt_one (by exact_mod_cast hbs)]
    exact_mod_cast hlt

/-- Witness for C9: with 49 buffered vectors and capacity 100, the 50th
frame triggers inference, reports `buffer_fill = 1.0`, while the true
fill fraction is 50/100 < 1. -/
theorem C9_buffer_fill_overstated_witness :
    (process_frame demo_cfg demo_oracle demo_state none).2.buffer_fill = 1 ∧
    ((deque_push demo_cfg.buffer_size demo_state.feature_buffer
      (frame_features none)).length : ℚ) / (demo_cfg.buffer_size : ℚ) < 1 := by
  refine C9_buffer_fill_overstated demo_cfg demo_oracle demo_state none rfl ?_ ?_ <;>
    (rw [deque_push_length]; simp [demo_state, demo_cfg])

/-- While the cooldown counter dominates the number of processed
frames, a run of frames only decrements the counter and grows the
buffer, leaving the stored top-k unchanged. -/
theorem run_frames_cooling (cfg : DetectorConfig) (o : TopKOracle)
    (lms : List (Option Frame21)) (s : DetectorState)
    (hlen : lms.length ≤ s.cooldown_frames)
    (hbuf : s.feature_buffer.length ≤ cfg.buffer_size) :
    (run_frames cfg o lms s).cooldown_frames = s.cooldown_frames - lms.length ∧
    (run_frames cfg o lms s).top3_predictions = s.top3_predictions ∧
    (run_frames cfg o lms s).top3_probabilities = s.top3_probabilities ∧
    (run_frames cfg o lms s).model_confidence = s.model_confidence ∧
    s.feature_buffer.length ≤ (run_frames cfg o lms s).feature_buffer.length ∧
    (run_frames cfg o lms s).feature_buffer.length ≤ cfg.buffer_size := by
  induction lms generalizing s with
  | nil =>
    simp [run_frames]
    exact hbuf
  | cons lm rest ih =>
    have hpos : 0 < s.cooldown_frames := by
      simp only [List.length_cons] at hlen
      omega
    have hrun : run_frames cfg o (lm :: rest) s =
        run_frames cfg o rest (process_frame cfg o s lm).1 := by
      simp [run_frames]
    have hstep := process_frame_cooling cfg o s lm hpos
    have h1feat : (process_frame cfg o s lm).1.feature_buffer =
        deque_push cfg.buffer_size s.feature_buffer (frame_features lm) := by
      rw [hstep]
    have h1cool : (process_frame cfg o s lm).1.cooldown_frames =
        s.cooldown_frames - 1 := by
      rw [hstep]
    have h1pred : (process_frame cfg o s lm).1.top3_predictions =
        s.top3_predictions := by
      rw [hstep]
    have h1prob : (process_frame cfg o s lm).1.top3_probabilities =
        s.top3_probabilities := by
      rw [hstep]
    have h1conf : (process_frame cfg o s lm).1.model_confidence =
        s.model_confidence := by
      rw [hstep]
    have hlen1 : rest.length ≤ (process_frame cfg o s lm).1.cooldown_frames := by
      rw [h1cool]
      simp only [List.length_cons] at hlen
      omega
    have hbuf1 : (process_frame cfg o s lm).1.feature_buffer.length ≤
        cfg.buffer_size := by
      rw [h1feat, deque_push_length]
      omega
    have hx := ih (process_frame cfg o s lm).1 hlen1 hbuf1
    rw [hrun]
    refine ⟨?_, ?_, ?_, ?_, ?_, ?_⟩
    · rw [hx.1, h1cool]
      simp only [List.length_cons]
      omega
    · rw [hx.2.1, h1pred]
    · rw [hx.2.2.1, h1prob]
    · rw [hx.2.2.2.1, h1conf]
    · have h5 := hx.2.2.2.2.1
      rw [h1feat, deque_push_length] at h5
      omega
    · exact hx.2.2.2.2.2

/-- C4: after an inference in which the oracle's top-1 probability
reaches the confidence threshold and its confidence reaches 0.5, the
detector stores the oracle's output and starts a 30-frame cooldown;
during the next 30 processed frames the oracle is not consulted (every
per-frame result below is given by an oracle-free right-hand side, for
arbitrary oracles `o2`, `o3`) and the stored top-k classes,
probabilities and model confidence are re-emitted unchanged; the frame
after those 30 runs inference again (its emitted top-k is a fresh
oracle call on the then-current snapshot). -/
theorem C4_cooldown_suppression (cfg : DetectorConfig) (o : TopKOracle)
    (s : DetectorState) (lm : Option Frame21)
    (cls : List ℕ) (probs : List ℚ) (conf : ℚ)
    (h0 : s.cooldown_frames = 0)
    (hbuf : s.feature_buffer.length ≤ cfg.buffer_size)
    (hge : cfg.buffer_size ≤
      2 * (deque_push cfg.buffer_size s.feature_buffer (frame_features lm)).length)
    (hout : o (snapshot (deque_push cfg.buffer_size s.feature_buffer (frame_features lm))).1
        (snapshot (deque_push cfg.buffer_size s.feature_buffer (frame_features lm))).2 =
        (cls, probs, conf))
    (hthresh : cfg.confidence_thresh ≤ probs.headI)
    (hconf : (1 : ℚ) / 2 ≤ conf) :
    (process_frame cfg o s lm).1 =
      { feature_buffer := deque_push cfg.buffer_size s.feature_buffer (frame_features lm),
        cooldown_frames := 30, top3_predictions := cls, top3_probabilities := probs,
        model_confidence := conf } ∧
    (∀ (o2 : TopKOracle) (lms : List (Option Frame21)), lms.length ≤ 30 →
      (run_frames cfg o2 lms (process_frame cfg o s lm).1).cooldown_frames =
        30 - lms.length ∧
      (run_frames cfg o2 lms (process_frame cfg o s lm).1).top3_predictions = cls ∧
      (run_frames cfg o2 lms (process_frame cfg o s lm).1).top3_probabilities = probs ∧
      (run_frames cfg o2 lms (process_frame cfg o s lm).1).model_confidence = conf) ∧
    (∀ (o2 : TopKOracle) (lms : List (Option Frame21)) (s2 : DetectorState),
      lms.length < 30 → s2 = run_frames cfg o2 lms (process_frame cfg o s lm).1 →
      ∀ (o3 : TopKOracle) (lm2 : Option Frame21),
        process_frame cfg o3 s2 lm2 =
          ({ s2 with
              feature_buffer :=
                deque_push cfg.buffer_size s2.feature_buffer (frame_features lm2),
              cooldown_frames := s2.cooldown_frames - 1 },
           { top3_classes := cls, top3_probs := probs, model_confidence := conf,
             buffer_fill :=
               ((deque_push cfg.buffer_size s2.feature_buffer
                 (frame_features lm2)).length : ℚ) / (cfg.buffer_size : ℚ) })) ∧
    (∀ (o2 : TopKOracle) (lms : List (Option Frame21)) (s2 : DetectorState),
      lms.length = 30 → s2 = run_frames cfg o2 lms (process_frame cfg o s lm).1 →
      s2.cooldown_frames = 0 ∧
      ∀ (o3 : TopKOracle) (lm2 : Option Frame21),
        (process_frame cfg o3 s2 lm2).2.top3_classes =
          (o3 (snapshot (deque_push cfg.buffer_size s2.feature_buffer
              (frame_features lm2))).1
            (snapshot (deque_push cfg.buffer_size s2.feature_buffer
              (frame_features lm2))).2).1) := by
  have hstep := process_frame_infer cfg o s lm h0 hge
  have h1 : (process_frame cfg o s lm).1 =
      { feature_buffer := deque_push cfg.buffer_size s.feature_buffer (frame_features lm),
        cooldown_frames := 30, top3_predictions := cls, top3_probabilities := probs,
        model_confidence := conf } := by
    rw [hstep]
    simp only [hout]
    rw [if_pos ⟨hthresh, hconf⟩]
  have hbuf1 : (process_frame cfg o s lm).1.feature_buffer.length ≤
      cfg.buffer_size := by
    simp only [h1]
    rw [deque_push_length]
    omega
  refine ⟨h1, ?_, ?_, ?_⟩
  · intro o2 lms hlen
    have hx := run_frames_cooling cfg o2 lms (process_frame cfg o s lm).1
      (by simp only [h1]; exact hlen) hbuf1
    refine ⟨?_, ?_, ?_, ?_⟩
    · rw [hx.1]
      simp only [h1]
    · rw [hx.2.1]
      simp only [h1]
    · rw [hx.2.2.1]
      simp only [h1]
    · rw [hx.2.2.2.1]
      simp only [h1]
  · intro o2 lms s2 hlt hs2 o3 lm2
    subst hs2
    have hx := run_frames_cooling cfg o2 lms (process_frame cfg o s lm).1
      (by simp only [h1]; omega) hbuf1
    have hcool2 : 0 < (run_frames cfg o2 lms
        (process_frame cfg o s lm).1).cooldown_frames := by
      rw [hx.1]
      simp only [h1]
      omega
    have e1 : (run_frames cfg o2 lms
        (process_frame cfg o s lm).1).top3_predictions = cls := by
      rw [hx.2.1]
      simp only [h1]
    have e2 : (run_frames cfg o2 lms
        (process_frame cfg o s lm).1).top3_probabilities = probs := by
      rw [hx.2.2.1]
      simp only [h1]
    have e3 : (run_frames cfg o2 lms
        (process_frame cfg o s lm).1).model_confidence = conf := by
      rw [hx.2.2.2.1]
      simp only [h1]
    rw [process_frame_cooling cfg o3 _ lm2 hcool2, e1, e2, e3]
  · intro o2 lms s2 hlen30 hs2
    subst hs2
    have hx := run_frames_cooling cfg o2 lms (process_frame cfg o s lm).1
      (by simp only [h1]; omega) hbuf1
    have hc0 : (run_frames cfg o2 lms
        (process_frame cfg o s lm).1).cooldown_frames = 0 := by
      rw [hx.1]
      simp only [h1, hlen30]
    refine ⟨hc0, ?_⟩
    intro o3 lm2
    have h5 := hx.2.2.2.2.1
    have h6 := hx.2.2.2.2.2
    have h7 : (process_frame cfg o s lm).1.feature_buffer.length =
        (deque_push cfg.buffer_size s.feature_buffer (frame_features lm)).length := by
      simp only [h1]
    rw [h7] at h5
    have hge2 : cfg.buffer_size ≤ 2 * (deque_push cfg.buffer_size
        (run_frames cfg o2 lms (process_frame cfg o s lm).1).feature_buffer
        (frame_features lm2)).length := by
      rw [deque_push_length]
      omega
    rw [process_frame_infer cfg o3 _ lm2 hc0 hge2]

/-- Witness for C4: from 49 buffered vectors, the 50th frame triggers
an inference with the constant demo oracle (top-1 probability 0.7 at
threshold 0.6, confidence 0.9 at threshold 0.5), storing its output
with a 30-frame cooldown, and 30 further processed frames bring the
cooldown back to 0. -/
theorem C4_cooldown_suppression_witness :
    (process_frame demo_cfg demo_oracle demo_state none).1 =
      { feature_buffer :=
          deque_push demo_cfg.buffer_size demo_state.feature_buffer
            (frame_features none),
        cooldown_frames := 30, top3_predictions := [1, 0, 2],
        top3_probabilities := [7/10, 2/10, 1/10], model_confidence := 9/10 } ∧
    (run_frames demo_cfg demo_oracle (List.replicate 30 none)
      (process_frame demo_cfg demo_oracle demo_state none).1).cooldown_frames = 0 := by
  have h := C4_cooldown_suppression demo_cfg demo_oracle demo_state none
    [1, 0, 2] [7/10, 2/10, 1/10] (9/10) rfl
    (by simp [demo_state, demo_cfg])
    (by rw [deque_push_length]; simp [demo_state, demo_cfg])
    rfl
    (by norm_num [demo_cfg, List.headI])
    (by norm_num)
  exact ⟨h.1, (h.2.2.2 demo_oracle (List.replicate 30 none) _ (by simp) rfl).1⟩

end PuppetUnity
